import Mathlib

/-!
Verification development for the controlbox connection-lifecycle subsystem.

Source files embedded here:
- src/src/controlbox/connector_discovery_facade.py
  (MaintainedConnection, MaintainedConnectionLoop, ConnectionManager)
- src/controlbox/conduit/server_discovery.py (TCPServerDiscovery)

Collaborators that are part of this repository but are not under src
(the Connector classes, AsyncLoop in controlbox.protocol.async, and
PeriodRetryStrategy) are modelled from the spec where a claim needs them;
each such definition carries a doc comment starting with
"Modelled from the spec:".
-/

namespace Controlbox

/-- Observable state of a Connector, per the consumed connector capability:
connected and available flags. -/
structure ConnectorState where
  connected : Bool
  available : Bool
deriving Repr, DecidableEq

/-- Connection events fired by a connector and forwarded to the event sink. -/
inductive ConnEvent
  | connectorConnected
  | connectorDisconnected
deriving Repr, DecidableEq

/-- Outcome of a call to connector.connect, supplied as an oracle: success,
the declared connection error (ConnectorError in the source), or any other
exception. -/
inductive ConnectOutcome
  | success
  | connectorError
  | otherError
deriving Repr, DecidableEq

/-- Python exceptions that the embedded code can raise or propagate. -/
inductive PyError
  | connectorError
  | attributeError (missing : String)
  | otherError
deriving Repr, DecidableEq

/-- Modelled from the spec: connector.connect is not under src. On success the
connector becomes connected and raises a ConnectorConnected notification
(forwarded unmodified by MaintainedConnection to its sink); a transient
failure raises the declared connection error; any other exception propagates.
State is unchanged on failure. -/
def connectorConnect (c : ConnectorState) (outcome : ConnectOutcome) :
    ConnectorState × List ConnEvent × Option PyError :=
  match outcome with
  | ConnectOutcome.success =>
      ({ c with connected := true }, [ConnEvent.connectorConnected], none)
  | ConnectOutcome.connectorError => (c, [], some PyError.connectorError)
  | ConnectOutcome.otherError => (c, [], some PyError.otherError)

/-- Modelled from the spec: connector.disconnect is not under src. It leaves
the connector disconnected and raises a ConnectorDisconnected notification
exactly when the connector had been connected (only clean transitions become
events). -/
def connectorDisconnect (c : ConnectorState) : ConnectorState × List ConnEvent :=
  ({ c with connected := false },
   if c.connected then [ConnEvent.connectorDisconnected] else [])

/-- Result of MaintainedConnection._open. tryOpen is both the value of the
local try_open and the return value; connect is invoked exactly when tryOpen
holds. -/
structure OpenResult where
  tryOpen : Bool
  connector : ConnectorState
  events : List ConnEvent
  loggedDebug : Bool
deriving Repr, DecidableEq

/-- MaintainedConnection._open (connector_discovery_facade.py lines 67 to 84):
try_open is set when the connector is not connected and is available; if so,
connector.connect() is called; a ConnectorError is caught (logged when debug
logging is enabled); any other exception propagates; returns try_open. -/
def mcOpen (c : ConnectorState) (outcome : ConnectOutcome) (debugEnabled : Bool) :
    Except PyError OpenResult :=
  let tryOpen := !c.connected && c.available
  if tryOpen then
    match connectorConnect c outcome with
    | (c2, evs, none) =>
        Except.ok { tryOpen := tryOpen, connector := c2, events := evs,
                    loggedDebug := false }
    | (c2, evs, some PyError.connectorError) =>
        Except.ok { tryOpen := tryOpen, connector := c2, events := evs,
                    loggedDebug := debugEnabled }
    | (_, _, some e) => Except.error e
  else
    Except.ok { tryOpen := false, connector := c, events := [],
                loggedDebug := false }

/-- Result of MaintainedConnection._close. disconnectCalls counts invocations
of connector.disconnect during the call. -/
structure CloseResult where
  wasConnected : Bool
  connector : ConnectorState
  events : List ConnEvent
  disconnectCalls : Nat
deriving Repr, DecidableEq

/-- MaintainedConnection._close (lines 86 to 95): records was_connected,
then calls connector.disconnect() unconditionally, and returns was_connected. -/
def mcClose (c : ConnectorState) : CloseResult :=
  let wasConnected := c.connected
  match connectorDisconnect c with
  | (c2, evs) =>
      { wasConnected := wasConnected, connector := c2, events := evs,
        disconnectCalls := 1 }

/-- Result of MaintainedConnection.maintain. result is the returned boolean
(the local will_try); openCalled records whether the _open method was invoked;
connectCalled records whether connector.connect was invoked inside _open. -/
structure MaintainResult where
  result : Bool
  openCalled : Bool
  connectCalled : Bool
  connector : ConnectorState
  events : List ConnEvent
deriving Repr, DecidableEq

/-- MaintainedConnection.maintain (lines 97 to 108): evaluates the retry
strategy at the given time, sets will_try when the delay is nonpositive,
calls _open() when will_try, and returns will_try. -/
def mcMaintain (retryDelay : Int → Int) (now : Int) (c : ConnectorState)
    (outcome : ConnectOutcome) (debugEnabled : Bool) :
    Except PyError MaintainResult :=
  let delay := retryDelay now
  let willTry := decide (delay ≤ 0)
  if willTry then
    (mcOpen c outcome debugEnabled).map fun r =>
      { result := willTry, openCalled := true, connectCalled := r.tryOpen,
        connector := r.connector, events := r.events }
  else
    Except.ok { result := willTry, openCalled := false, connectCalled := false,
                connector := c, events := [] }

/-! ## ConnectionManager registry (connector_discovery_facade.py lines 152 to 231) -/

/-- One entry of the managers map from resource key to MaintainedConnection.
Connector instances are identified by a numeric id (Python object identity,
compared with the is operator in the source). -/
structure MCRec where
  connectorId : Nat
  connector : ConnectorState
deriving Repr, DecidableEq

/-- Manager state: the _connections map (resource key to record) plus the
activity of each records background worker, keyed by the connector id of the
record the worker drives. -/
structure MgrState where
  connections : List (Nat × MCRec)
  workers : List (Nat × Bool)
deriving Repr, DecidableEq

/-- Python dict lookup on the connections map. -/
def lookupRec (k : Nat) (reg : List (Nat × MCRec)) : Option MCRec :=
  (reg.find? (fun p => p.1 == k)).map Prod.snd

/-- Python dict assignment on the connections map. -/
def storeRec (k : Nat) (r : MCRec) (reg : List (Nat × MCRec)) :
    List (Nat × MCRec) :=
  (k, r) :: reg.filter (fun p => p.1 != k)

/-- Activity flag of the worker driving the given connector id, in a worker
map. -/
def lookupWorker (id : Nat) (ws : List (Nat × Bool)) : Bool :=
  ((ws.find? (fun p => p.1 == id)).map Prod.snd).getD false

/-- Worker activity for the worker driving connector id. -/
def workerActive (id : Nat) (s : MgrState) : Bool :=
  lookupWorker id s.workers

/-- Set the activity flag of one worker. -/
def setWorker (id : Nat) (b : Bool) (ws : List (Nat × Bool)) :
    List (Nat × Bool) :=
  (id, b) :: ws.filter (fun p => p.1 != id)

/-- Modelled from the spec: AsyncLoop.stop (controlbox.protocol.async, not
under src) sets the cancellation flag and blocks until the worker has fully
exited; at return the worker is no longer active. The loop body under src
changes the connector state only through _open and _close, so a stop by
itself leaves the connector state of the record unchanged. -/
def loopStop (id : Nat) (s : MgrState) : MgrState :=
  { s with workers := setWorker id false s.workers }

/-- Modelled from the spec: AsyncLoop.start launches the background worker,
which becomes active. -/
def loopStart (id : Nat) (s : MgrState) : MgrState :=
  { s with workers := setWorker id true s.workers }

/-- The steps ConnectionManager.available may perform, in order. -/
inductive AvailStep
  | stopOld
  | storeNew
  | startNew
deriving Repr, DecidableEq

/-- Result of ConnectionManager.available: the final state, the intermediate
states in order (the initial state first, then the state after each step) and
the steps taken. -/
structure AvailResult where
  final : MgrState
  trace : List MgrState
  steps : List AvailStep
deriving Repr, DecidableEq

/-- ConnectionManager.available (lines 186 to 203): looks up the previous
record for the key; when it holds the same connector instance the method
returns quietly; otherwise the previous loop is stopped (blocking, see
loopStop); then a new MaintainedConnection is built, stored in the map, and
its loop started. The trace records the state at every instant between
steps. -/
def managerAvailable (k : Nat) (connectorId : Nat) (c : ConnectorState)
    (s : MgrState) : AvailResult :=
  match lookupRec k s.connections with
  | some previous =>
      if previous.connectorId = connectorId then
        { final := s, trace := [s], steps := [] }
      else
        let s1 := loopStop previous.connectorId s
        let newRec : MCRec := { connectorId := connectorId, connector := c }
        let s2 := { s1 with connections := storeRec k newRec s1.connections }
        let s3 := loopStart connectorId s2
        { final := s3, trace := [s, s1, s2, s3],
          steps := [AvailStep.stopOld, AvailStep.storeNew, AvailStep.startNew] }
  | none =>
      let newRec : MCRec := { connectorId := connectorId, connector := c }
      let s2 := { s with connections := storeRec k newRec s.connections }
      let s3 := loopStart connectorId s2
      { final := s3, trace := [s, s2, s3],
        steps := [AvailStep.storeNew, AvailStep.startNew] }

/-- Result of ConnectionManager.unavailable: the state after the call and the
record that was stopped and removed, when one existed. -/
structure UnavailResult where
  final : MgrState
  stoppedRecord : Option MCRec
deriving Repr, DecidableEq

/-- ConnectionManager.unavailable (lines 177 to 184): when the key is in the
map, the records loop is stopped (blocking) and the record deleted from the
map; otherwise nothing happens. The source performs only a membership test, a
stop and a del, none of which raises. -/
def managerUnavailable (k : Nat) (s : MgrState) : UnavailResult :=
  match lookupRec k s.connections with
  | some rec =>
      let s1 := loopStop rec.connectorId s
      { final := { s1 with
                    connections := s1.connections.filter (fun p => p.1 != k) },
        stoppedRecord := some rec }
  | none => { final := s, stoppedRecord := none }

/-! ## ConnectionManager.maintain (lines 219 to 228) -/

/-- The attribute names defined on a MaintainedConnection instance: the
fields assigned in __init__, the methods of the class, and the loop field
assigned by ConnectionManager._new_maintained_connection. -/
def mcDefinedAttrs : List String :=
  ["resource", "connector", "retry_strategy", "events", "logger", "loop",
   "_connector_events", "_open", "_close", "maintain"]

/-- Python attribute lookup on a MaintainedConnection instance: defined names
resolve, any other name raises AttributeError. -/
def mcGetattr (s : String) : Bool := mcDefinedAttrs.contains s

/-- Inputs for one record during a ConnectionManager.maintain pass: the
connector state, the delay the records retry strategy reports at the current
time, and the outcome a connect attempt would have. -/
structure MaintRecInput where
  connector : ConnectorState
  delay : Int
  outcome : ConnectOutcome
deriving Repr, DecidableEq

/-- Iteration of ConnectionManager.maintain over the snapshot of records:
each records maintain is called; an exception is caught by the except block,
which logs it and then calls managed_connection.close(); since close is not a
defined attribute of MaintainedConnection this lookup raises AttributeError,
which propagates out of ConnectionManager.maintain, ending the iteration.
Returns the number of records whose maintain was invoked and the propagated
exception, if any. The source never deletes entries from _connections here,
so the map is unchanged by this pass. -/
def managerMaintainGo : List MaintRecInput → Nat → Nat × Option PyError
  | [], n => (n, none)
  | r :: rest, n =>
      match mcMaintain (fun _ => r.delay) 0 r.connector r.outcome false with
      | Except.ok _ => managerMaintainGo rest (n + 1)
      | Except.error _ =>
          if mcGetattr "close" then
            managerMaintainGo rest (n + 1)
          else
            (n + 1, some (PyError.attributeError "close"))

/-- ConnectionManager.maintain over a snapshot of the current records. -/
def managerMaintain (recs : List MaintRecInput) : Nat × Option PyError :=
  managerMaintainGo recs 0

/-! ## MaintainedConnectionLoop (lines 111 to 149) -/

/-- State threaded through one run of the loop body: the connector, the
cancellation flag of the loop (stop_event), the number of connected-callback
invocations started, the events forwarded to the sink, and the number of
_close calls. -/
structure LoopSt where
  connector : ConnectorState
  stopRequested : Bool
  callbackCalls : Nat
  events : List ConnEvent
  closeCalls : Nat
deriving Repr, DecidableEq

/-- Outcome of one connected-callback invocation, supplied as a script
indexed by the invocation count: the callback returns (the connector may or
may not still be connected afterwards, since the callback performs I/O), or
the callback raises. -/
inductive CbOutcome
  | ok (connectedAfter : Bool)
  | raises
deriving Repr, DecidableEq

/-- How the inner connected loop was left. -/
inductive InnerExit
  | notConnected
  | callbackRaised
  | fuelExhausted
deriving Repr, DecidableEq

/-- The inner loop of MaintainedConnectionLoop.loop (lines 134 to 142):
while maintained_connection.connector.connected, the connected callback is
invoked; when it raises, the finally block calls _close (success stayed
false) and the exception propagates out of the while. The loop condition
reads only the connected flag; the cancellation flag is not consulted. Fuel
bounds the number of iterations that are unfolded; running out of fuel means
the loop was still running. -/
def innerLoop (script : Nat → CbOutcome) : Nat → LoopSt → LoopSt × InnerExit
  | 0, st => (st, InnerExit.fuelExhausted)
  | fuel + 1, st =>
      if st.connector.connected then
        match script st.callbackCalls with
        | CbOutcome.ok connectedAfter =>
            innerLoop script fuel
              { st with
                  connector := { st.connector with connected := connectedAfter },
                  callbackCalls := st.callbackCalls + 1 }
        | CbOutcome.raises =>
            let cr := mcClose st.connector
            ({ st with
                 connector := cr.connector,
                 callbackCalls := st.callbackCalls + 1,
                 events := st.events ++ cr.events,
                 closeCalls := st.closeCalls + 1 },
             InnerExit.callbackRaised)
      else (st, InnerExit.notConnected)

/-- Result of one call of MaintainedConnectionLoop.loop. raised records
whether the call propagated an exception; waited records that the outer
finally executed stop_event.wait for the retry delay (the wait is
interruptible by the cancellation flag). -/
structure LoopOnceResult where
  st : LoopSt
  exitKind : InnerExit
  raised : Bool
  waited : Bool
deriving Repr, DecidableEq

/-- MaintainedConnectionLoop.loop (lines 124 to 144): calls _open on the
maintained connection, runs the inner connected loop, and in the outer
finally waits on stop_event for the retry delay. An exception from the
callback (or a non-connection error from open) propagates out of loop after
the finally has run. -/
def loopOnce (outcome : ConnectOutcome) (debugEnabled : Bool)
    (script : Nat → CbOutcome) (fuel : Nat) (st : LoopSt) : LoopOnceResult :=
  match mcOpen st.connector outcome debugEnabled with
  | Except.error _ =>
      { st := st, exitKind := InnerExit.notConnected, raised := true,
        waited := true }
  | Except.ok r =>
      let st1 := { st with connector := r.connector,
                           events := st.events ++ r.events }
      match innerLoop script fuel st1 with
      | (st2, ex) =>
          { st := st2, exitKind := ex,
            raised := decide (ex = InnerExit.callbackRaised), waited := true }

/-- Modelled from the spec: AsyncLoop (controlbox.protocol.async, not under
src) runs the loop body repeatedly on a background worker until stop is
requested, checking the cancellation flag at each outer iteration boundary;
after a callback failure the loop re-enters its outer retry wait and repeats
rather than terminating. Returns the final state and the number of loop body
calls performed within the given number of rounds. -/
def asyncDriver (outcome : ConnectOutcome) (debugEnabled : Bool)
    (script : Nat → CbOutcome) (fuel : Nat) :
    Nat → LoopSt → LoopSt × Nat
  | 0, st => (st, 0)
  | rounds + 1, st =>
      if st.stopRequested then (st, 0)
      else
        let r := loopOnce outcome debugEnabled script fuel st
        match asyncDriver outcome debugEnabled script fuel rounds r.st with
        | (st2, n) => (st2, n + 1)

/-! ## TCPServerDiscovery (server_discovery.py) -/

/-- The data zeroconf.get_service_info returns for a service, when it
resolves: server name, address and port. -/
structure ServiceInfo where
  server : String
  address : String
  port : Nat
deriving Repr, DecidableEq

/-- ZeroconfTCPServerEndpoint (server_discovery.py lines 10 to 16): a TCP
endpoint built from the zeroconf service info. -/
structure ZeroconfEndpoint where
  hostname : String
  ipAddress : String
  port : Nat
deriving Repr, DecidableEq

/-- The kind of availability event enqueued for a notification. -/
inductive ResourceEventKind
  | available
  | unavailable
deriving Repr, DecidableEq

/-- An availability event held in the discovery queue. -/
structure ZEvent where
  kind : ResourceEventKind
  endpoint : ZeroconfEndpoint
deriving Repr, DecidableEq

/-- State of a TCPServerDiscovery: the event queue and the number of
warnings logged. -/
structure DiscoveryState where
  eventQueue : List ZEvent
  warnings : Nat
deriving Repr, DecidableEq

/-- TCPServerDiscovery.resource_for_service (lines 49 to 56): asks zeroconf
for the service info (supplied here as an oracle, none when zeroconf has no
info for the name and type) and builds the endpoint when info was returned. -/
def resource_for_service (info : Option ServiceInfo) : Option ZeroconfEndpoint :=
  match info with
  | none => none
  | some i => some { hostname := i.server, ipAddress := i.address, port := i.port }

/-- TCPServerDiscovery._publish (lines 58 to 67): builds the resource for the
service; when one was built the event is put on the queue, otherwise a
warning is logged and nothing is enqueued. -/
def publish (kind : ResourceEventKind) (info : Option ServiceInfo)
    (st : DiscoveryState) : DiscoveryState :=
  match resource_for_service info with
  | some ep => { st with eventQueue := st.eventQueue ++ [{ kind := kind, endpoint := ep }] }
  | none => { st with warnings := st.warnings + 1 }

/-- TCPServerDiscovery.add_service (lines 73 to 75). -/
def add_service (info : Option ServiceInfo) (st : DiscoveryState) : DiscoveryState :=
  publish ResourceEventKind.available info st

/-- TCPServerDiscovery.remove_service (lines 69 to 71). -/
def remove_service (info : Option ServiceInfo) (st : DiscoveryState) : DiscoveryState :=
  publish ResourceEventKind.unavailable info st

/-- TCPServerDiscovery.update (lines 77 to 83): when the queue is not empty,
drains it completely and fires the drained events in order; returns the
fired events and the state afterwards. -/
def discoveryUpdate (st : DiscoveryState) : List ZEvent × DiscoveryState :=
  if st.eventQueue.isEmpty then ([], st)
  else (st.eventQueue, { st with eventQueue := [] })

/-! ## Helper lemmas -/

theorem find?_filter_of_imp {α : Type} (q r : α → Bool) (l : List α)
    (h : ∀ x, q x = true → r x = true) :
    (l.filter r).find? q = l.find? q := by
  induction l with
  | nil => rfl
  | cons a t ih =>
      by_cases hr : r a = true
      · by_cases hq : q a = true
        · simp [List.filter_cons, hr, List.find?_cons_of_pos, hq]
        · rw [List.filter_cons, if_pos hr, List.find?_cons_of_neg _ (by simp [hq]),
            List.find?_cons_of_neg _ (by simp [hq]), ih]
      · have hq : q a = false := by
          cases hqa : q a
          · rfl
          · exact absurd (h a hqa) hr
        rw [List.filter_cons, if_neg hr, ih, List.find?_cons_of_neg _ (by simp [hq])]

theorem mcOpen_ok_tryOpen (c : ConnectorState) (o : ConnectOutcome) (d : Bool) :
    ∀ r, mcOpen c o d = Except.ok r → r.tryOpen = (!c.connected && c.available) := by
  intro r h
  obtain ⟨cc, ca⟩ := c
  cases cc <;> cases ca <;> cases o <;> cases d <;>
    simp_all [mcOpen, connectorConnect] <;> (subst h; rfl)

theorem mcOpen_error (c : ConnectorState) (o : ConnectOutcome) (d : Bool) :
    ∀ e, mcOpen c o d = Except.error e →
      e = PyError.otherError ∧ o = ConnectOutcome.otherError ∧
      (!c.connected && c.available) = true := by
  intro e h
  obtain ⟨cc, ca⟩ := c
  cases cc <;> cases ca <;> cases o <;> cases d <;>
    simp_all [mcOpen, connectorConnect]

theorem lookupWorker_setWorker_self (id : Nat) (b : Bool) (ws : List (Nat × Bool)) :
    lookupWorker id (setWorker id b ws) = b := by
  simp [lookupWorker, setWorker, List.find?_cons_of_pos]

theorem lookupWorker_setWorker_ne (id id2 : Nat) (b : Bool)
    (ws : List (Nat × Bool)) (h : id ≠ id2) :
    lookupWorker id (setWorker id2 b ws) = lookupWorker id ws := by
  unfold lookupWorker setWorker
  rw [List.find?_cons_of_neg _ (by simp [Ne.symm h]),
    find?_filter_of_imp _ _ _ (by
      intro x hx
      simp at hx
      simp [hx, h])]

theorem lookupRec_filter_self (k : Nat) (l : List (Nat × MCRec)) :
    lookupRec k (l.filter (fun p => p.1 != k)) = none := by
  unfold lookupRec
  rw [List.find?_eq_none.mpr]
  · rfl
  · intro x hx
    have hm := (List.mem_filter.mp hx).2
    simp at hm
    simp [hm]

theorem lookupRec_storeRec_self (k : Nat) (r : MCRec) (l : List (Nat × MCRec)) :
    lookupRec k (storeRec k r l) = some r := by
  simp [lookupRec, storeRec, List.find?_cons_of_pos]

/-! ## Claims -/

/-- Claim C7: MaintainedConnection open calls connector.connect if and only
if the connector is not connected and is available; a connection error raised
by connect is caught (logged when debug logging is enabled) and never
propagates out of open; open returns whether an attempt was made. -/
theorem open_attempt_iff_and_connection_error_caught
    (c : ConnectorState) (o : ConnectOutcome) (d : Bool) :
    (∀ r, mcOpen c o d = Except.ok r →
        (r.tryOpen = true ↔ (c.connected = false ∧ c.available = true))) ∧
    (∃ r, mcOpen c ConnectOutcome.connectorError d = Except.ok r ∧
        r.tryOpen = (!c.connected && c.available) ∧
        r.loggedDebug = (r.tryOpen && d)) ∧
    (∀ e, mcOpen c o d = Except.error e → e = PyError.otherError) := by
  refine ⟨?_, ?_, ?_⟩
  · intro r h
    have := mcOpen_ok_tryOpen c o d r h
    obtain ⟨cc, ca⟩ := c
    cases cc <;> cases ca <;> simp_all
  · obtain ⟨cc, ca⟩ := c
    cases cc <;> cases ca <;> cases d <;>
      exact ⟨_, rfl, by decide, by decide⟩
  · intro e h
    exact (mcOpen_error c o d e h).1

/-- Witness for claim C7 at a disconnected, available connector. -/
theorem open_attempt_iff_and_connection_error_caught_witness :
    (OpenResult.mk true (ConnectorState.mk true true)
        [ConnEvent.connectorConnected] false).tryOpen = true ↔
      ((ConnectorState.mk false true).connected = false ∧
       (ConnectorState.mk false true).available = true) := by
  exact (open_attempt_iff_and_connection_error_caught
      (ConnectorState.mk false true) ConnectOutcome.success false).1
    (OpenResult.mk true (ConnectorState.mk true true)
      [ConnEvent.connectorConnected] false) rfl

/-- Claim C8 as stated fails: for a connector that is currently not
connected, close nevertheless calls connector.disconnect (once). -/
theorem close_unconditional_counterexample :
    ¬ ((mcClose (ConnectorState.mk false true)).disconnectCalls ≠ 0 →
        (ConnectorState.mk false true).connected = true) := by
  decide

/-- Claim C8 (amended): close always calls connector.disconnect exactly once,
regardless of the connected state, leaves the connector disconnected, and
returns whether the connector had been connected at the time of the call. -/
theorem close_amended (c : ConnectorState) :
    (mcClose c).wasConnected = c.connected ∧
    (mcClose c).disconnectCalls = 1 ∧
    (mcClose c).connector.connected = false := by
  obtain ⟨cc, ca⟩ := c
  cases cc <;> cases ca <;> decide

/-- Claim C6 as stated fails: with a due retry delay and an already connected
connector, maintain returns true although no connection attempt (no call of
connector.connect) occurred. -/
theorem maintain_result_counterexample :
    ¬ (∀ r, mcMaintain (fun _ => 0) 0 (ConnectorState.mk true true)
          ConnectOutcome.success false = Except.ok r →
        r.result = r.connectCalled) := by
  intro h
  have h2 := h (MaintainResult.mk true true false (ConnectorState.mk true true) []) rfl
  exact absurd h2 (by decide)

/-- Claim C6 (amended): maintain consults the retry strategy with the given
time; it calls open if and only if the returned delay is nonpositive, and its
boolean result equals whether open was invoked; the result can be true
although connector.connect was not called, namely when the connector is
already connected or not available. -/
theorem maintain_amended (rd : Int → Int) (now : Int) (c : ConnectorState)
    (o : ConnectOutcome) (d : Bool) :
    (∀ r, mcMaintain rd now c o d = Except.ok r →
        (r.openCalled = true ↔ rd now ≤ 0) ∧
        r.result = r.openCalled ∧
        r.connectCalled = (r.openCalled && (!c.connected && c.available))) ∧
    (∀ e, mcMaintain rd now c o d = Except.error e → rd now ≤ 0) := by
  constructor
  · intro r hr
    by_cases hd : rd now ≤ 0
    · rw [mcMaintain] at hr
      simp only [hd, decide_eq_true_eq, if_pos, Except.map] at hr
      cases ho : mcOpen c o d with
      | error e => rw [ho] at hr; cases hr
      | ok r2 =>
          rw [ho] at hr
          cases hr
          have := mcOpen_ok_tryOpen c o d r2 ho
          simp [hd, this]
    · rw [mcMaintain] at hr
      rw [if_neg (by simpa using hd)] at hr
      cases hr
      simp [hd]
  · intro e he
    by_cases hd : rd now ≤ 0
    · exact hd
    · rw [mcMaintain] at he
      simp [hd] at he

/-- Witness for the amended claim C6 at a due, not connected, available
connector. -/
theorem maintain_amended_witness :
    ((MaintainResult.mk true true true (ConnectorState.mk true true)
        [ConnEvent.connectorConnected]).openCalled = true ↔
      (0 : Int) ≤ 0) := by
  exact ((maintain_amended (fun _ => 0) 0 (ConnectorState.mk false true)
      ConnectOutcome.success false).1
    (MaintainResult.mk true true true (ConnectorState.mk true true)
      [ConnEvent.connectorConnected]) rfl).1

/-- Claim C1 is the intent, but the code slips: when a records maintain
raises a non-connection error, ConnectionManager.maintain logs it and then
calls managed_connection.close(), a method MaintainedConnection does not
define, so an AttributeError propagates out of maintain; the registry entry
is never dropped (the source has no del in maintain) and the records after
the failing one are not maintained. Evaluated here at a failing input: the
first record raises (due delay, connect raises a non-connection error), the
second is healthy; only one record is maintained and AttributeError escapes.
With no failing record, all records are maintained and nothing is raised. -/
theorem manager_maintain_attribute_error_eval :
    managerMaintain
      [MaintRecInput.mk (ConnectorState.mk false true) 0 ConnectOutcome.otherError,
       MaintRecInput.mk (ConnectorState.mk false true) 0 ConnectOutcome.success] =
      (1, some (PyError.attributeError "close")) ∧
    managerMaintain
      [MaintRecInput.mk (ConnectorState.mk false true) 0 ConnectOutcome.success,
       MaintRecInput.mk (ConnectorState.mk false true) 0 ConnectOutcome.success] =
      (2, none) ∧
    mcGetattr "close" = false := by
  refine ⟨rfl, rfl, ?_⟩
  decide

/-- Claim C10: for an add_service or remove_service notification, an
availability event is enqueued if and only if zeroconf returns service info
for the name and type; when no info is returned nothing is enqueued for that
notification, a warning is logged, and a later update fires exactly what it
would have fired without the notification. -/
theorem tcp_publish_enqueue_iff_info (kind : ResourceEventKind)
    (info : Option ServiceInfo) (st : DiscoveryState) :
    (∀ i, info = some i →
        publish kind info st =
          { st with eventQueue := st.eventQueue ++
              [ZEvent.mk kind (ZeroconfEndpoint.mk i.server i.address i.port)] }) ∧
    (info = none →
        (publish kind info st).eventQueue = st.eventQueue ∧
        (publish kind info st).warnings = st.warnings + 1 ∧
        (discoveryUpdate (publish kind info st)).1 = (discoveryUpdate st).1) ∧
    add_service info st = publish ResourceEventKind.available info st ∧
    remove_service info st = publish ResourceEventKind.unavailable info st := by
  refine ⟨?_, ?_, rfl, rfl⟩
  · rintro i rfl
    rfl
  · rintro rfl
    refine ⟨rfl, rfl, ?_⟩
    simp only [publish, resource_for_service, discoveryUpdate]
    by_cases hq : st.eventQueue = [] <;> simp [hq]

/-- Witness for claim C10: with resolvable info the event is enqueued; with
no info only the warning counter moves. -/
theorem tcp_publish_enqueue_iff_info_witness :
    publish ResourceEventKind.available (some (ServiceInfo.mk "srv" "addr" 7))
        (DiscoveryState.mk [] 0) =
      DiscoveryState.mk
        [ZEvent.mk ResourceEventKind.available (ZeroconfEndpoint.mk "srv" "addr" 7)] 0 ∧
    (publish ResourceEventKind.unavailable none (DiscoveryState.mk [] 0)).warnings = 1 := by
  constructor
  · exact (tcp_publish_enqueue_iff_info ResourceEventKind.available
        (some (ServiceInfo.mk "srv" "addr" 7)) (DiscoveryState.mk [] 0)).1
      (ServiceInfo.mk "srv" "addr" 7) rfl
  · exact ((tcp_publish_enqueue_iff_info ResourceEventKind.unavailable
        none (DiscoveryState.mk [] 0)).2.1 rfl).2.1

/-- Claim C5 as stated fails: unavailable stops the worker of the record and
removes the key, but the connector of the stopped record is left in its
previous connectivity state, here still connected, not disconnected. -/
theorem unavailable_disconnect_counterexample :
    ¬ (∀ rec, (managerUnavailable 1
          (MgrState.mk [(1, MCRec.mk 7 (ConnectorState.mk true true))]
            [(7, true)])).stoppedRecord = some rec →
        rec.connector.connected = false) := by
  intro h
  exact absurd (h (MCRec.mk 7 (ConnectorState.mk true true)) rfl) (by decide)

/-- Claim C5 (amended): for a key with an existing record, unavailable stops
that records worker and removes the key from the registry (the connector is
left in whatever connectivity state the worker left it); for a key with no
record, unavailable changes nothing and raises no error. -/
theorem unavailable_amended (k : Nat) (s : MgrState) :
    (∀ rec, lookupRec k s.connections = some rec →
        (managerUnavailable k s).stoppedRecord = some rec ∧
        workerActive rec.connectorId (managerUnavailable k s).final = false ∧
        lookupRec k (managerUnavailable k s).final.connections = none) ∧
    (lookupRec k s.connections = none →
        managerUnavailable k s = UnavailResult.mk s none) := by
  constructor
  · intro rec hrec
    unfold managerUnavailable
    rw [hrec]
    refine ⟨rfl, ?_, ?_⟩
    · simp only [workerActive, loopStop]
      exact lookupWorker_setWorker_self rec.connectorId false s.workers
    · exact lookupRec_filter_self k (loopStop rec.connectorId s).connections
  · intro hnone
    unfold managerUnavailable
    rw [hnone]

/-- Witness for the amended claim C5: both the existing-record branch and the
unknown-key branch at concrete states. -/
theorem unavailable_amended_witness :
    (managerUnavailable 1
        (MgrState.mk [(1, MCRec.mk 7 (ConnectorState.mk true true))]
          [(7, true)])).stoppedRecord =
      some (MCRec.mk 7 (ConnectorState.mk true true)) ∧
    managerUnavailable 2 (MgrState.mk [] []) =
      UnavailResult.mk (MgrState.mk [] []) none := by
  constructor
  · exact ((unavailable_amended 1
        (MgrState.mk [(1, MCRec.mk 7 (ConnectorState.mk true true))] [(7, true)])).1
      (MCRec.mk 7 (ConnectorState.mk true true)) rfl).1
  · exact (unavailable_amended 2 (MgrState.mk [] [])).2 rfl

/-- Claim C4: calling available again with the same connector instance for a
key that already has a record is a no-op: the state (registry and workers) is
unchanged, no step (stop, store or start) is performed, so no new maintained
connection or worker is created, the existing worker keeps running and no
duplicate connect attempt is triggered. -/
theorem available_same_connector_noop (k id : Nat) (c : ConnectorState)
    (s : MgrState) (rec : MCRec)
    (hrec : lookupRec k s.connections = some rec)
    (hid : rec.connectorId = id) :
    managerAvailable k id c s = AvailResult.mk s [s] [] := by
  unfold managerAvailable
  rw [hrec]
  simp [hid]

/-- Witness for claim C4 at a concrete registry. -/
theorem available_same_connector_noop_witness :
    managerAvailable 1 7 (ConnectorState.mk false true)
        (MgrState.mk [(1, MCRec.mk 7 (ConnectorState.mk false true))] [(7, true)]) =
      AvailResult.mk
        (MgrState.mk [(1, MCRec.mk 7 (ConnectorState.mk false true))] [(7, true)])
        [MgrState.mk [(1, MCRec.mk 7 (ConnectorState.mk false true))] [(7, true)]]
        [] := by
  exact available_same_connector_noop 1 7 (ConnectorState.mk false true)
    (MgrState.mk [(1, MCRec.mk 7 (ConnectorState.mk false true))] [(7, true)])
    (MCRec.mk 7 (ConnectorState.mk false true)) rfl rfl

/-- Claim C2: replacing the record of a key with a record for a different
connector instance performs, in order, the blocking stop of the old worker,
the store of the new record, and the start of the new worker; at every
instant of the call at most one of the two workers is active, the old worker
is already stopped at every instant at which the new record is visible in
the registry, and at the end the old worker is inactive and the new one
active. The blocking behaviour of stop comes from the spec model of
AsyncLoop.stop (loopStop). -/
theorem available_replacement_no_overlap (k id1 id2 : Nat)
    (cNew : ConnectorState) (s : MgrState) (rec : MCRec)
    (hrec : lookupRec k s.connections = some rec)
    (hid : rec.connectorId = id1)
    (hne : id1 ≠ id2)
    (hnew : workerActive id2 s = false) :
    (managerAvailable k id2 cNew s).steps =
        [AvailStep.stopOld, AvailStep.storeNew, AvailStep.startNew] ∧
    (∀ st ∈ (managerAvailable k id2 cNew s).trace,
        ¬ (workerActive id1 st = true ∧ workerActive id2 st = true)) ∧
    (∀ st ∈ (managerAvailable k id2 cNew s).trace,
        (∃ r2, lookupRec k st.connections = some r2 ∧ r2.connectorId = id2) →
          workerActive id1 st = false) ∧
    workerActive id1 (managerAvailable k id2 cNew s).final = false ∧
    workerActive id2 (managerAvailable k id2 cNew s).final = true := by
  subst hid
  have hms : managerAvailable k id2 cNew s =
      AvailResult.mk
        (loopStart id2 (MgrState.mk
          (storeRec k (MCRec.mk id2 cNew) (loopStop rec.connectorId s).connections)
          (loopStop rec.connectorId s).workers))
        [s, loopStop rec.connectorId s,
         MgrState.mk
           (storeRec k (MCRec.mk id2 cNew) (loopStop rec.connectorId s).connections)
           (loopStop rec.connectorId s).workers,
         loopStart id2 (MgrState.mk
           (storeRec k (MCRec.mk id2 cNew) (loopStop rec.connectorId s).connections)
           (loopStop rec.connectorId s).workers)]
        [AvailStep.stopOld, AvailStep.storeNew, AvailStep.startNew] := by
    unfold managerAvailable
    rw [hrec]
    simp only [hne, if_false]
  have hl1 : lookupWorker rec.connectorId
      (setWorker rec.connectorId false s.workers) = false :=
    lookupWorker_setWorker_self rec.connectorId false s.workers
  have hl2 : lookupWorker id2 (setWorker rec.connectorId false s.workers) = false := by
    rw [lookupWorker_setWorker_ne id2 rec.connectorId false s.workers (Ne.symm hne)]
    exact hnew
  have hw1 : workerActive rec.connectorId (loopStop rec.connectorId s) = false := hl1
  have hw2 : workerActive id2 (loopStop rec.connectorId s) = false := hl2
  have hw3 : workerActive rec.connectorId
      (loopStart id2 (MgrState.mk
        (storeRec k (MCRec.mk id2 cNew) (loopStop rec.connectorId s).connections)
        (loopStop rec.connectorId s).workers)) = false := by
    show lookupWorker rec.connectorId
        (setWorker id2 true (setWorker rec.connectorId false s.workers)) = false
    rw [lookupWorker_setWorker_ne rec.connectorId id2 true _ hne]
    exact hl1
  have hw4 : workerActive id2
      (loopStart id2 (MgrState.mk
        (storeRec k (MCRec.mk id2 cNew) (loopStop rec.connectorId s).connections)
        (loopStop rec.connectorId s).workers)) = true :=
    lookupWorker_setWorker_self id2 true _
  rw [hms]
  refine ⟨rfl, ?_, ?_, hw3, hw4⟩
  · intro st hst
    simp only [List.mem_cons, List.not_mem_nil, or_false] at hst
    rcases hst with rfl | rfl | rfl | rfl
    · rintro ⟨_, h2⟩
      rw [hnew] at h2
      cases h2
    · rintro ⟨h1, _⟩
      rw [hw1] at h1
      cases h1
    · rintro ⟨h1, _⟩
      rw [show workerActive rec.connectorId (MgrState.mk
          (storeRec k (MCRec.mk id2 cNew) (loopStop rec.connectorId s).connections)
          (loopStop rec.connectorId s).workers) = false from hl1] at h1
      cases h1
    · rintro ⟨h1, _⟩
      rw [hw3] at h1
      cases h1
  · intro st hst
    simp only [List.mem_cons, List.not_mem_nil, or_false] at hst
    rcases hst with rfl | rfl | rfl | rfl
    · rintro ⟨r2, hr2, hr2id⟩
      rw [hrec] at hr2
      injection hr2 with h
      rw [← h] at hr2id
      exact absurd hr2id hne
    · intro _
      exact hw1
    · intro _
      exact hl1
    · intro _
      exact hw3

/-- Witness for claim C2 at a concrete one-record registry with an active
old worker. -/
theorem available_replacement_no_overlap_witness :
    (managerAvailable 1 8 (ConnectorState.mk false true)
        (MgrState.mk [(1, MCRec.mk 7 (ConnectorState.mk false true))]
          [(7, true)])).steps =
      [AvailStep.stopOld, AvailStep.storeNew, AvailStep.startNew] ∧
    workerActive 7 (managerAvailable 1 8 (ConnectorState.mk false true)
        (MgrState.mk [(1, MCRec.mk 7 (ConnectorState.mk false true))]
          [(7, true)])).final = false ∧
    workerActive 8 (managerAvailable 1 8 (ConnectorState.mk false true)
        (MgrState.mk [(1, MCRec.mk 7 (ConnectorState.mk false true))]
          [(7, true)])).final = true := by
  have h := available_replacement_no_overlap 1 7 8 (ConnectorState.mk false true)
    (MgrState.mk [(1, MCRec.mk 7 (ConnectorState.mk false true))] [(7, true)])
    (MCRec.mk 7 (ConnectorState.mk false true)) rfl rfl (by decide) (by decide)
  exact ⟨h.1, h.2.2.2.1, h.2.2.2.2⟩

/-- The inner connected loop never reads the cancellation flag: the number of
callback invocations it performs is the same with the flag set or cleared. -/
theorem innerLoop_callbackCalls_stop_irrelevant (script : Nat → CbOutcome) :
    ∀ (fuel : Nat) (c : ConnectorState) (b1 b2 : Bool) (n : Nat)
      (evs : List ConnEvent) (cc : Nat),
      (innerLoop script fuel (LoopSt.mk c b1 n evs cc)).1.callbackCalls =
        (innerLoop script fuel (LoopSt.mk c b2 n evs cc)).1.callbackCalls := by
  intro fuel
  induction fuel with
  | zero => intro c b1 b2 n evs cc; rfl
  | succ m ih =>
      intro c b1 b2 n evs cc
      simp only [innerLoop]
      cases hc : c.connected with
      | false => simp [hc]
      | true =>
          simp only [hc, if_true]
          cases hs : script n with
          | ok ca => simpa [hs] using ih { c with connected := ca } b1 b2 (n + 1) evs cc
          | raises => simp [hs]

/-- Whenever the inner connected loop has exited (rather than run out of
fuel), the connector is disconnected: either the loop condition saw it
disconnected, or the callback raised and _close disconnected it. -/
theorem innerLoop_exit_disconnected (script : Nat → CbOutcome) :
    ∀ (fuel : Nat) (st st2 : LoopSt) (e : InnerExit),
      innerLoop script fuel st = (st2, e) → e ≠ InnerExit.fuelExhausted →
        st2.connector.connected = false := by
  intro fuel
  induction fuel with
  | zero =>
      intro st st2 e h hne
      simp only [innerLoop, Prod.mk.injEq] at h
      exact absurd h.2.symm hne
  | succ m ih =>
      intro st st2 e h hne
      simp only [innerLoop] at h
      cases hc : st.connector.connected with
      | false =>
          rw [hc] at h
          simp only [Bool.false_eq_true, if_false, Prod.mk.injEq] at h
          rw [← h.1]
          exact hc
      | true =>
          rw [hc] at h
          simp only [if_true] at h
          cases hs : script st.callbackCalls with
          | ok ca =>
              simp only [hs] at h
              exact ih _ st2 e h hne
          | raises =>
              simp only [hs, Prod.mk.injEq] at h
              rw [← h.1]
              rfl

/-- The inner connected loop, when the callback raises, performs exactly one
close call, leaves the connector disconnected, and forwards exactly one
ConnectorDisconnected event (after whatever events were already forwarded). -/
theorem innerLoop_raise_close (script : Nat → CbOutcome) :
    ∀ (fuel : Nat) (st st2 : LoopSt),
      innerLoop script fuel st = (st2, InnerExit.callbackRaised) →
        st2.closeCalls = st.closeCalls + 1 ∧
        st2.connector.connected = false ∧
        st2.events = st.events ++ [ConnEvent.connectorDisconnected] := by
  intro fuel
  induction fuel with
  | zero =>
      intro st st2 h
      simp only [innerLoop, Prod.mk.injEq] at h
      cases h.2
  | succ m ih =>
      intro st st2 h
      simp only [innerLoop] at h
      cases hc : st.connector.connected with
      | false =>
          rw [hc] at h
          simp only [Bool.false_eq_true, if_false, Prod.mk.injEq] at h
          cases h.2
      | true =>
          rw [hc] at h
          simp only [if_true] at h
          cases hs : script st.callbackCalls with
          | ok ca =>
              simp only [hs] at h
              have h2 := ih _ st2 h
              exact h2
          | raises =>
              simp only [hs, Prod.mk.injEq] at h
              rw [← h.1]
              refine ⟨rfl, rfl, ?_⟩
              simp [mcClose, connectorDisconnect, hc]

/-- Claim C3 as stated fails: with the cancellation flag set and the
connector still connected, the inner loop keeps invoking the connected
callback (three further invocations within three iterations here), because
the loop condition reads only the connected flag. -/
theorem loop_stop_claim_counterexample :
    ¬ ((innerLoop (fun _ => CbOutcome.ok true) 3
          (LoopSt.mk (ConnectorState.mk true true) true 0 [] 0)).1.callbackCalls = 0) := by
  decide

/-- Claim C3 (amended): once stop has been requested, no further outer
iteration of the worker loop begins, and whenever the inner loop has exited
(so the worker can be joined) the connector is disconnected; however the
inner loop condition reads only the connected flag, not the cancellation
flag, so until the connector disconnects or the callback raises, the
connected callback continues to be invoked even after stop was requested. -/
theorem loop_stop_amended (outcome : ConnectOutcome) (d : Bool)
    (script : Nat → CbOutcome) (fuel rounds : Nat) (st : LoopSt) :
    (st.stopRequested = true →
        asyncDriver outcome d script fuel rounds st = (st, 0)) ∧
    (∀ st2 e, innerLoop script fuel st = (st2, e) →
        e ≠ InnerExit.fuelExhausted → st2.connector.connected = false) ∧
    (innerLoop script fuel { st with stopRequested := true }).1.callbackCalls =
      (innerLoop script fuel { st with stopRequested := false }).1.callbackCalls := by
  refine ⟨?_, ?_, ?_⟩
  · intro hstop
    cases rounds with
    | zero => rfl
    | succ m => simp [asyncDriver, hstop]
  · intro st2 e h hne
    exact innerLoop_exit_disconnected script fuel st st2 e h hne
  · exact innerLoop_callbackCalls_stop_irrelevant script fuel st.connector true false
      st.callbackCalls st.events st.closeCalls

/-- Witness for the amended claim C3: a driver that sees the flag set does
nothing further, and a joined inner loop left the connector disconnected. -/
theorem loop_stop_amended_witness :
    asyncDriver ConnectOutcome.success false (fun _ => CbOutcome.ok true) 2 5
        (LoopSt.mk (ConnectorState.mk true true) true 0 [] 0) =
      (LoopSt.mk (ConnectorState.mk true true) true 0 [] 0, 0) ∧
    (LoopSt.mk (ConnectorState.mk false true) false 1 [] 0).connector.connected = false := by
  constructor
  · exact (loop_stop_amended ConnectOutcome.success false (fun _ => CbOutcome.ok true) 2 5
      (LoopSt.mk (ConnectorState.mk true true) true 0 [] 0)).1 rfl
  · exact (loop_stop_amended ConnectOutcome.success false (fun _ => CbOutcome.ok false) 2 0
      (LoopSt.mk (ConnectorState.mk true true) false 0 [] 0)).2.1
      (LoopSt.mk (ConnectorState.mk false true) false 1 [] 0) InnerExit.notConnected
      (by decide) (by decide)

/-- The connected-callback script of the C9 scenario: three successful
iterations, then the callback raises. -/
def scriptThreeThenRaise : Nat → CbOutcome :=
  fun i => if i < 3 then CbOutcome.ok true else CbOutcome.raises

/-- Start state of the C9 scenario: connector disconnected and available, no
stop requested, nothing forwarded yet. -/
def episodeStart : LoopSt := LoopSt.mk (ConnectorState.mk false true) false 0 [] 0

/-- Claim C9: in any inner-loop run in which the connected callback raises,
the loop calls close on the maintained connection (exactly once) and exits
the inner loop with the connector disconnected, forwarding exactly one
ConnectorDisconnected; in the concrete connect-then-three-iterations-then-
raise episode the forwarded events are exactly one ConnectorConnected
followed by exactly one ConnectorDisconnected, the outer wait still runs,
and the driver re-enters the loop (a second round happens) rather than
terminating. -/
theorem callback_failure_episode (script : Nat → CbOutcome) (fuel : Nat)
    (st st2 : LoopSt)
    (hrun : innerLoop script fuel st = (st2, InnerExit.callbackRaised)) :
    (st2.closeCalls = st.closeCalls + 1 ∧ st2.connector.connected = false ∧
      st2.events = st.events ++ [ConnEvent.connectorDisconnected]) ∧
    (loopOnce ConnectOutcome.success false scriptThreeThenRaise 10 episodeStart).st.events =
      [ConnEvent.connectorConnected, ConnEvent.connectorDisconnected] ∧
    (loopOnce ConnectOutcome.success false scriptThreeThenRaise 10 episodeStart).st.callbackCalls = 4 ∧
    (loopOnce ConnectOutcome.success false scriptThreeThenRaise 10 episodeStart).waited = true ∧
    (asyncDriver ConnectOutcome.success false scriptThreeThenRaise 10 2 episodeStart).2 = 2 := by
  refine ⟨innerLoop_raise_close script fuel st st2 hrun, ?_, ?_, ?_, ?_⟩ <;> decide

/-- Witness for claim C9 at the concrete post-connect state of the episode. -/
theorem callback_failure_episode_witness :
    (LoopSt.mk (ConnectorState.mk false true) false 4
        [ConnEvent.connectorConnected, ConnEvent.connectorDisconnected] 1).closeCalls = 0 + 1 ∧
    (LoopSt.mk (ConnectorState.mk false true) false 4
        [ConnEvent.connectorConnected, ConnEvent.connectorDisconnected] 1).connector.connected = false ∧
    (LoopSt.mk (ConnectorState.mk false true) false 4
        [ConnEvent.connectorConnected, ConnEvent.connectorDisconnected] 1).events =
      [ConnEvent.connectorConnected] ++ [ConnEvent.connectorDisconnected] := by
  exact (callback_failure_episode scriptThreeThenRaise 10
    (LoopSt.mk (ConnectorState.mk true true) false 0 [ConnEvent.connectorConnected] 0)
    (LoopSt.mk (ConnectorState.mk false true) false 4
      [ConnEvent.connectorConnected, ConnEvent.connectorDisconnected] 1)
    (by decide)).1

end Controlbox
